import Mathlib

/-!
Verification of the fallback-resolution algorithm of the file_env_const
crate (src/lib.rs).  The crate exposes two compile-time directives,
file_env and env_file, that resolve a literal string from a file, an
environment variable and an optional default literal, in that order for
file_env and with the first two sources swapped for env_file.

The embedding is shallow: the ambient state (readable files, set
environment variables) is a pair of partial maps; the argument iterator of
the Rust code is passed explicitly as a list; a panic becomes Except.error
carrying the panic message; the eprintln diagnostics are collected in a
list, in emission order.
-/

/-- Ambient state at macro-expansion time.  fs maps a path to some contents
exactly when std fs read_to_string would succeed on it; env maps a variable
name to some value exactly when std env var would succeed on it.  All
failure causes collapse to none, as in the source (Err(_) patterns). -/
structure Ambient where
  fs : String → Option String
  env : String → Option String

/-- The enum Kind of src/lib.rs lines 53-56: Data carries resolved content
(the LitStr value), Name carries the descriptor of the source that failed. -/
inductive Kind where
  | Data : String → Kind
  | Name : String → Kind

/-- read_file of src/lib.rs lines 163-177: take the next argument as a
filename and read it; a read error collapses to Kind.Name filename; an
exhausted argument list panics with the message shown. -/
def read_file (amb : Ambient) : List String → Except String (Kind × List String)
  | [] => Except.error "No filename argument supplied"
  | x :: rest =>
    match amb.fs x with
    | some d => Except.ok (Kind.Data d, rest)
    | none => Except.ok (Kind.Name x, rest)

/-- read_from_env of src/lib.rs lines 179-192: take the next argument as an
environment variable name and read it; a lookup error collapses to
Kind.Name name; an exhausted argument list panics with the message shown. -/
def read_from_env (amb : Ambient) : List String → Except String (Kind × List String)
  | [] => Except.error "No env argument supplied"
  | x :: rest =>
    match amb.env x with
    | some s => Except.ok (Kind.Data s, rest)
    | none => Except.ok (Kind.Name x, rest)

/-- file_env of src/lib.rs lines 137-161: try the file, then the
environment variable, then the literal default; the second component of the
result collects the eprintln diagnostics in emission order; Except.error is
a panic (translation aborts). -/
def file_env (amb : Ambient) (args : List String) : Except String String × List String :=
  match read_file amb args with
  | Except.error e => (Except.error e, [])
  | Except.ok (Kind.Data d, _) => (Except.ok d, [])
  | Except.ok (Kind.Name name, rest) =>
    match read_from_env amb rest with
    | Except.error e =>
      (Except.error e, ["No file found at " ++ name ++ ", trying environment variable"])
    | Except.ok (Kind.Data d, _) =>
      (Except.ok d, ["No file found at " ++ name ++ ", trying environment variable"])
    | Except.ok (Kind.Name name2, rest2) =>
      match rest2 with
      | d :: _ =>
        (Except.ok d,
         ["No file found at " ++ name ++ ", trying environment variable",
          "No environment variable found with name " ++ name2 ++ ", trying default"])
      | [] =>
        (Except.error
          "No filename argument supplied, try file_env!(\"filename\", \"ENV_NAME\", \"default_value\")",
         ["No file found at " ++ name ++ ", trying environment variable",
          "No environment variable found with name " ++ name2 ++ ", trying default"])

/-- env_file of src/lib.rs lines 84-108: try the environment variable, then
the file, then the literal default.  The diagnostic texts and the panic
message are exactly those of the source: after the environment lookup fails
the message says "trying default", after the file lookup fails it says
"trying environment variable", and the panic names file_env. -/
def env_file (amb : Ambient) (args : List String) : Except String String × List String :=
  match read_from_env amb args with
  | Except.error e => (Except.error e, [])
  | Except.ok (Kind.Data d, _) => (Except.ok d, [])
  | Except.ok (Kind.Name name, rest) =>
    match read_file amb rest with
    | Except.error e =>
      (Except.error e, ["No environment variable found with name " ++ name ++ ", trying default"])
    | Except.ok (Kind.Data d, _) =>
      (Except.ok d, ["No environment variable found with name " ++ name ++ ", trying default"])
    | Except.ok (Kind.Name name2, rest2) =>
      match rest2 with
      | d :: _ =>
        (Except.ok d,
         ["No environment variable found with name " ++ name ++ ", trying default",
          "No file found at " ++ name2 ++ ", trying environment variable"])
      | [] =>
        (Except.error
          "No filename argument supplied, try file_env!(\"filename\", \"ENV_NAME\", \"default_value\")",
         ["No environment variable found with name " ++ name ++ ", trying default",
          "No file found at " ++ name2 ++ ", trying environment variable"])

/-- Sample ambient: one readable file with a trailing newline and one set
environment variable. -/
def ambA : Ambient where
  fs := fun p => if p = "config.txt" then some "hello\n" else none
  env := fun v => if v = "APP_NAME" then some "fromenv" else none

/-- Sample ambient in which no file is readable and no variable is set. -/
def ambNone : Ambient where
  fs := fun _ => none
  env := fun _ => none

/-- Claim C1: when the primary source resolves, each directive returns
exactly the primary content (trailing newline included) and emits no
diagnostic; the secondary source is never consulted: the result is fixed
with the other map of the ambient and the remaining arguments universally
quantified. -/
theorem c1_primary_wins (amb : Ambient) (f e c : String) (rest : List String) :
    (amb.fs f = some c → file_env amb (f :: rest) = (Except.ok c, [])) ∧
    (amb.env e = some c → env_file amb (e :: rest) = (Except.ok c, [])) := by
  constructor
  · intro h
    simp [file_env, read_file, h]
  · intro h
    simp [env_file, read_from_env, h]

/-- Witness for c1_primary_wins at a concrete ambient. -/
theorem c1_primary_wins_witness :
    file_env ambA ["config.txt", "APP_NAME"] = (Except.ok "hello\n", []) ∧
    env_file ambA ["APP_NAME", "config.txt"] = (Except.ok "fromenv", []) :=
  ⟨(c1_primary_wins ambA "config.txt" "APP_NAME" "hello\n" ["APP_NAME"]).1 rfl,
   (c1_primary_wins ambA "config.txt" "APP_NAME" "fromenv" ["config.txt"]).2 rfl⟩

/-- Claim C2: when the primary source fails and the secondary source
resolves, each directive returns exactly the secondary source's content. -/
theorem c2_secondary_wins (amb : Ambient) (f e c : String) (rest : List String) :
    (amb.fs f = none → amb.env e = some c →
      (file_env amb (f :: e :: rest)).1 = Except.ok c) ∧
    (amb.env e = none → amb.fs f = some c →
      (env_file amb (e :: f :: rest)).1 = Except.ok c) := by
  constructor
  · intro h1 h2
    simp [file_env, read_file, read_from_env, h1, h2]
  · intro h1 h2
    simp [env_file, read_file, read_from_env, h1, h2]

/-- Witness for c2_secondary_wins: a missing file falls back to the set
variable, an unset variable falls back to the readable file. -/
theorem c2_secondary_wins_witness :
    (file_env ambA ["missing", "APP_NAME"]).1 = Except.ok "fromenv" ∧
    (env_file ambA ["UNSET", "config.txt"]).1 = Except.ok "hello\n" :=
  ⟨(c2_secondary_wins ambA "missing" "APP_NAME" "fromenv" []).1 rfl rfl,
   (c2_secondary_wins ambA "config.txt" "UNSET" "hello\n" []).2 rfl rfl⟩

/-- Claim C3: when both sources fail and a third argument is present, each
directive returns the default literal verbatim: the value d below is
arbitrary and the ambient is unconstrained at d, so no lookup and no
transformation is applied to it. -/
theorem c3_default_verbatim (amb : Ambient) (f e d : String) (rest : List String) :
    (amb.fs f = none → amb.env e = none →
      (file_env amb (f :: e :: d :: rest)).1 = Except.ok d) ∧
    (amb.env e = none → amb.fs f = none →
      (env_file amb (e :: f :: d :: rest)).1 = Except.ok d) := by
  constructor
  · intro h1 h2
    simp [file_env, read_file, read_from_env, h1, h2]
  · intro h1 h2
    simp [env_file, read_file, read_from_env, h1, h2]

/-- Witness for c3_default_verbatim, with a default carrying leading and
trailing spaces that survive untrimmed. -/
theorem c3_default_verbatim_witness :
    (file_env ambNone ["F", "E", " fallback "]).1 = Except.ok " fallback " ∧
    (env_file ambNone ["E", "F", " fallback "]).1 = Except.ok " fallback " :=
  ⟨(c3_default_verbatim ambNone "F" "E" " fallback " []).1 rfl rfl,
   (c3_default_verbatim ambNone "F" "E" " fallback " []).2 rfl rfl⟩

/-- Claim C4: when both sources fail and no default is supplied, each
directive aborts translation (Except.error, the panic of the source) and
never returns a value. -/
theorem c4_abort_no_default (amb : Ambient) (f e : String) :
    (amb.fs f = none → amb.env e = none →
      (file_env amb [f, e]).1 = Except.error
        "No filename argument supplied, try file_env!(\"filename\", \"ENV_NAME\", \"default_value\")") ∧
    (amb.env e = none → amb.fs f = none →
      (env_file amb [e, f]).1 = Except.error
        "No filename argument supplied, try file_env!(\"filename\", \"ENV_NAME\", \"default_value\")") := by
  constructor
  · intro h1 h2
    simp [file_env, read_file, read_from_env, h1, h2]
  · intro h1 h2
    simp [env_file, read_file, read_from_env, h1, h2]

/-- Witness for c4_abort_no_default at the all-failing ambient. -/
theorem c4_abort_no_default_witness :
    (file_env ambNone ["F", "E"]).1 = Except.error
      "No filename argument supplied, try file_env!(\"filename\", \"ENV_NAME\", \"default_value\")" ∧
    (env_file ambNone ["E", "F"]).1 = Except.error
      "No filename argument supplied, try file_env!(\"filename\", \"ENV_NAME\", \"default_value\")" :=
  ⟨(c4_abort_no_default ambNone "F" "E").1 rfl rfl,
   (c4_abort_no_default ambNone "F" "E").2 rfl rfl⟩

/-- Sample ambient for the C5 counterexample: the file F is readable, no
environment variable is set. -/
def amb5 : Ambient where
  fs := fun p => if p = "F" then some "filedata" else none
  env := fun _ => none

/-- Claim C5 counterexample: in env_file the diagnostic emitted after the
primary (environment) failure reads "trying default", yet the stage
actually tried next is the secondary file source: here it resolves and the
returned value is the file content "filedata", not the default "d", so the
diagnostic does not name the stage that is actually tried next. -/
theorem c5_counterexample :
    env_file amb5 ["E", "F", "d"] =
      (Except.ok "filedata",
       ["No environment variable found with name E, trying default"]) ∧
    ("filedata" : String) ≠ "d" := by
  constructor
  · rfl
  · decide

/-- Claim C5 as amended: the failed source's descriptor is always named
correctly, and file_env's diagnostics name the stage actually tried next
("trying environment variable" after the file fails, "trying default"
after the variable fails); env_file reuses the per-source texts of
file_env, so its primary-failure diagnostic says "trying default" although
the file is tried next, and its secondary-failure diagnostic says "trying
environment variable" although the default is next. -/
theorem c5_amended_diagnostics (amb : Ambient) (f e v : String) (rest : List String) :
    (amb.fs f = none →
      (file_env amb (f :: e :: rest)).2.head? =
        some ("No file found at " ++ f ++ ", trying environment variable")) ∧
    (amb.fs f = none → amb.env e = none →
      (file_env amb (f :: e :: rest)).2 =
        ["No file found at " ++ f ++ ", trying environment variable",
         "No environment variable found with name " ++ e ++ ", trying default"]) ∧
    (amb.env v = none →
      (env_file amb (v :: f :: rest)).2.head? =
        some ("No environment variable found with name " ++ v ++ ", trying default")) ∧
    (amb.env v = none → amb.fs f = none →
      (env_file amb (v :: f :: rest)).2 =
        ["No environment variable found with name " ++ v ++ ", trying default",
         "No file found at " ++ f ++ ", trying environment variable"]) := by
  refine ⟨?_, ?_, ?_, ?_⟩
  · intro h1
    cases h2 : amb.env e <;> cases rest <;>
      simp [file_env, read_file, read_from_env, h1, h2]
  · intro h1 h2
    cases rest <;> simp [file_env, read_file, read_from_env, h1, h2]
  · intro h1
    cases h2 : amb.fs f <;> cases rest <;>
      simp [env_file, read_file, read_from_env, h1, h2]
  · intro h1 h2
    cases rest <;> simp [env_file, read_file, read_from_env, h1, h2]

/-- Witness for c5_amended_diagnostics at the all-failing ambient. -/
theorem c5_amended_diagnostics_witness :
    (file_env ambNone ["F", "E"]).2.head? =
      some "No file found at F, trying environment variable" ∧
    (file_env ambNone ["F", "E"]).2 =
      ["No file found at F, trying environment variable",
       "No environment variable found with name E, trying default"] ∧
    (env_file ambNone ["V", "F"]).2.head? =
      some "No environment variable found with name V, trying default" ∧
    (env_file ambNone ["V", "F"]).2 =
      ["No environment variable found with name V, trying default",
       "No file found at F, trying environment variable"] := by
  have h := c5_amended_diagnostics ambNone "F" "E" "V" []
  exact ⟨h.1 rfl, h.2.1 rfl rfl, h.2.2.1 rfl, h.2.2.2 rfl rfl⟩

/-- Claim C6 counterexample: when env_file aborts because both sources
failed and no default was supplied, the fatal message names file_env, not
the directive actually invoked (env_file). -/
theorem c6_counterexample :
    (env_file ambNone ["E", "F"]).1 = Except.error
      "No filename argument supplied, try file_env!(\"filename\", \"ENV_NAME\", \"default_value\")" ∧
    ("No filename argument supplied, try file_env!(\"filename\", \"ENV_NAME\", \"default_value\")" : String) ≠
      "No filename argument supplied, try env_file!(\"filename\", \"ENV_NAME\", \"default_value\")" := by
  constructor
  · rfl
  · decide

/-- Claim C6 as amended: both directives abort with the identical fatal
message, which always names file_env regardless of which directive was
invoked. -/
theorem c6_amended_fatal_message (amb : Ambient) (f e : String)
    (h1 : amb.fs f = none) (h2 : amb.env e = none) :
    (file_env amb [f, e]).1 = Except.error
      "No filename argument supplied, try file_env!(\"filename\", \"ENV_NAME\", \"default_value\")" ∧
    (env_file amb [e, f]).1 = Except.error
      "No filename argument supplied, try file_env!(\"filename\", \"ENV_NAME\", \"default_value\")" := by
  constructor
  · simp [file_env, read_file, read_from_env, h1, h2]
  · simp [env_file, read_file, read_from_env, h1, h2]

/-- Witness for c6_amended_fatal_message at the all-failing ambient. -/
theorem c6_amended_fatal_message_witness :
    (file_env ambNone ["F", "E"]).1 = Except.error
      "No filename argument supplied, try file_env!(\"filename\", \"ENV_NAME\", \"default_value\")" ∧
    (env_file ambNone ["E", "F"]).1 = Except.error
      "No filename argument supplied, try file_env!(\"filename\", \"ENV_NAME\", \"default_value\")" :=
  c6_amended_fatal_message ambNone "F" "E" rfl rfl

/-- Sample ambient in which the file and the environment variable hold the
same content. -/
def ambSame : Ambient where
  fs := fun p => if p = "config.txt" then some "same" else none
  env := fun v => if v = "APP_NAME" then some "same" else none

/-- Claim C7: with the same two working sources in swapped argument order,
each directive returns its own primary source's content, and when the two
contents agree the two directives return the same final value. -/
theorem c7_symmetry (amb : Ambient) (f e cf ce : String) (restF restE : List String)
    (hf : amb.fs f = some cf) (he : amb.env e = some ce) :
    (file_env amb (f :: e :: restF)).1 = Except.ok cf ∧
    (env_file amb (e :: f :: restE)).1 = Except.ok ce ∧
    (cf = ce → (file_env amb (f :: e :: restF)).1 = (env_file amb (e :: f :: restE)).1) := by
  refine ⟨?_, ?_, ?_⟩
  · simp [file_env, read_file, hf]
  · simp [env_file, read_from_env, he]
  · intro hc
    simp [file_env, env_file, read_file, read_from_env, hf, he, hc]

/-- Witness for c7_symmetry at an ambient where both sources agree. -/
theorem c7_symmetry_witness :
    (file_env ambSame ["config.txt", "APP_NAME"]).1 = Except.ok "same" ∧
    (env_file ambSame ["APP_NAME", "config.txt"]).1 = Except.ok "same" ∧
    (file_env ambSame ["config.txt", "APP_NAME"]).1 =
      (env_file ambSame ["APP_NAME", "config.txt"]).1 := by
  have h := c7_symmetry ambSame "config.txt" "APP_NAME" "same" "same" [] [] rfl rfl
  exact ⟨h.1, h.2.1, h.2.2 rfl⟩

/-- Claim C8: a single-argument invocation whose primary source fails runs
out of arguments at the secondary stage and aborts translation with the
descriptive panic of the helper that was reached (read_from_env for
file_env, read_file for env_file); no value is returned. -/
theorem c8_short_arg_list_aborts (amb : Ambient) (f e : String) :
    (amb.fs f = none → (file_env amb [f]).1 = Except.error "No env argument supplied") ∧
    (amb.env e = none → (env_file amb [e]).1 = Except.error "No filename argument supplied") := by
  constructor
  · intro h
    simp [file_env, read_file, read_from_env, h]
  · intro h
    simp [env_file, read_file, read_from_env, h]

/-- Witness for c8_short_arg_list_aborts at the all-failing ambient. -/
theorem c8_short_arg_list_aborts_witness :
    (file_env ambNone ["F"]).1 = Except.error "No env argument supplied" ∧
    (env_file ambNone ["E"]).1 = Except.error "No filename argument supplied" :=
  ⟨(c8_short_arg_list_aborts ambNone "F" "E").1 rfl,
   (c8_short_arg_list_aborts ambNone "F" "E").2 rfl⟩

/-- Resolution value of file_env with diagnostic emission erased, stated
from the spec's sentence that diagnostics are observational only; to be
compared with the first component of file_env. -/
def file_env_value (amb : Ambient) : List String → Except String String
  | [] => Except.error "No filename argument supplied"
  | f :: rest =>
    match amb.fs f with
    | some d => Except.ok d
    | none =>
      match rest with
      | [] => Except.error "No env argument supplied"
      | e :: rest2 =>
        match amb.env e with
        | some s => Except.ok s
        | none =>
          match rest2 with
          | d :: _ => Except.ok d
          | [] =>
            Except.error
              "No filename argument supplied, try file_env!(\"filename\", \"ENV_NAME\", \"default_value\")"

/-- Resolution value of env_file with diagnostic emission erased, stated
from the spec's sentence that diagnostics are observational only; to be
compared with the first component of env_file. -/
def env_file_value (amb : Ambient) : List String → Except String String
  | [] => Except.error "No env argument supplied"
  | e :: rest =>
    match amb.env e with
    | some s => Except.ok s
    | none =>
      match rest with
      | [] => Except.error "No filename argument supplied"
      | f :: rest2 =>
        match amb.fs f with
        | some d => Except.ok d
        | none =>
          match rest2 with
          | d :: _ => Except.ok d
          | [] =>
            Except.error
              "No filename argument supplied, try file_env!(\"filename\", \"ENV_NAME\", \"default_value\")"

lemma file_env_fst_eq_value (amb : Ambient) (args : List String) :
    (file_env amb args).1 = file_env_value amb args := by
  cases args with
  | nil => rfl
  | cons f rest =>
    cases hf : amb.fs f with
    | some d => simp [file_env, file_env_value, read_file, hf]
    | none =>
      cases rest with
      | nil => simp [file_env, file_env_value, read_file, read_from_env, hf]
      | cons e rest2 =>
        cases he : amb.env e with
        | some s => simp [file_env, file_env_value, read_file, read_from_env, hf, he]
        | none =>
          cases rest2 <;>
            simp [file_env, file_env_value, read_file, read_from_env, hf, he]

lemma env_file_fst_eq_value (amb : Ambient) (args : List String) :
    (env_file amb args).1 = env_file_value amb args := by
  cases args with
  | nil => rfl
  | cons e rest =>
    cases he : amb.env e with
    | some s => simp [env_file, env_file_value, read_from_env, he]
    | none =>
      cases rest with
      | nil => simp [env_file, env_file_value, read_file, read_from_env, he]
      | cons f rest2 =>
        cases hf : amb.fs f with
        | some d => simp [env_file, env_file_value, read_file, read_from_env, he, hf]
        | none =>
          cases rest2 <;>
            simp [env_file, env_file_value, read_file, read_from_env, he, hf]

/-- Claim C9: each directive is a deterministic function of the argument
list and the ambient state (equal inputs give equal outputs, diagnostics
included), and the returned value coincides with the diagnostic-free
resolution, so the emitted diagnostics never affect the returned value. -/
theorem c9_deterministic (amb₁ amb₂ : Ambient) (args₁ args₂ : List String)
    (h₁ : amb₁ = amb₂) (h₂ : args₁ = args₂) :
    file_env amb₁ args₁ = file_env amb₂ args₂ ∧
    env_file amb₁ args₁ = env_file amb₂ args₂ ∧
    (file_env amb₁ args₁).1 = file_env_value amb₁ args₁ ∧
    (env_file amb₁ args₁).1 = env_file_value amb₁ args₁ := by
  subst h₁
  subst h₂
  exact ⟨rfl, rfl, file_env_fst_eq_value amb₁ args₁, env_file_fst_eq_value amb₁ args₁⟩

/-- Witness for c9_deterministic at a concrete ambient and argument list. -/
theorem c9_deterministic_witness :
    file_env ambA ["missing", "APP_NAME"] = file_env ambA ["missing", "APP_NAME"] ∧
    env_file ambA ["UNSET", "config.txt"] = env_file ambA ["UNSET", "config.txt"] ∧
    (file_env ambA ["missing", "APP_NAME"]).1 = file_env_value ambA ["missing", "APP_NAME"] ∧
    (env_file ambA ["UNSET", "config.txt"]).1 = env_file_value ambA ["UNSET", "config.txt"] := by
  have h := c9_deterministic ambA ambA ["missing", "APP_NAME"] ["missing", "APP_NAME"] rfl rfl
  have h2 := c9_deterministic ambA ambA ["UNSET", "config.txt"] ["UNSET", "config.txt"] rfl rfl
  exact ⟨h.1, h2.2.1, h.2.2.1, h2.2.2.2⟩

lemma file_env_take3 (amb : Ambient) (args : List String) :
    file_env amb args = file_env amb (args.take 3) := by
  match args with
  | [] => rfl
  | [a] => rfl
  | [a, b] => rfl
  | a :: b :: c :: rest =>
    show file_env amb (a :: b :: c :: rest) = file_env amb [a, b, c]
    cases hf : amb.fs a with
    | some d => simp [file_env, read_file, hf]
    | none =>
      cases he : amb.env b with
      | some s => simp [file_env, read_file, read_from_env, hf, he]
      | none => simp [file_env, read_file, read_from_env, hf, he]

lemma env_file_take3 (amb : Ambient) (args : List String) :
    env_file amb args = env_file amb (args.take 3) := by
  match args with
  | [] => rfl
  | [a] => rfl
  | [a, b] => rfl
  | a :: b :: c :: rest =>
    show env_file amb (a :: b :: c :: rest) = env_file amb [a, b, c]
    cases he : amb.env a with
    | some s => simp [env_file, read_from_env, he]
    | none =>
      cases hf : amb.fs b with
      | some d => simp [env_file, read_file, read_from_env, he, hf]
      | none => simp [env_file, read_file, read_from_env, he, hf]

/-- Claim C10: arguments beyond the third are silently ignored: each
directive's full result (value, abort status and diagnostics alike) on any
argument list equals its result on the first three arguments. -/
theorem c10_extra_args_ignored (amb : Ambient) (args : List String) :
    file_env amb args = file_env amb (args.take 3) ∧
    env_file amb args = env_file amb (args.take 3) :=
  ⟨file_env_take3 amb args, env_file_take3 amb args⟩
